import Mathlib

/-!
Verification of the Lab4 software rasterizer (procedurally textured planets).

The Rust source under src/Lab4/src is shallowly embedded here: `f32` values are
modelled as real numbers (the claims are about the exact real-arithmetic content
of the formulas), `i32` as integers, and each Rust function becomes a Lean
definition with the same name and structure.  Modules referenced by the source
but not present in the repository snapshot (framebuffer.rs, matrix.rs,
vertex.rs) are modelled from the specification, each marked as such in its doc
comment.
-/

namespace Lab4

noncomputable section

/-- 3-component vector of reals, modelling raylib's `Vector3` of `f32`. -/
structure Vector3 where
  x : ℝ
  y : ℝ
  z : ℝ

/-- 4-component vector of reals, modelling raylib's `Vector4` of `f32`. -/
structure Vector4 where
  x : ℝ
  y : ℝ
  z : ℝ
  w : ℝ

/-- Componentwise scaling `v * s` (raylib `Vector3 * f32`). -/
def Vector3.smul (v : Vector3) (s : ℝ) : Vector3 :=
  ⟨v.x * s, v.y * s, v.z * s⟩

/-- Componentwise addition (raylib `Vector3 + Vector3`). -/
def Vector3.add (a b : Vector3) : Vector3 :=
  ⟨a.x + b.x, a.y + b.y, a.z + b.z⟩

/-- Rust `t.max(0.0).min(1.0)`, the clamp used by `Lerp` and `fragment_shader`. -/
def clamp01 (t : ℝ) : ℝ := min (max t 0) 1

/-- `impl Lerp for Vector3` from shaders.rs: linear interpolation with the
interpolation parameter clamped to [0,1]. -/
def lerpV3 (a b : Vector3) (t : ℝ) : Vector3 :=
  let t := clamp01 t
  ⟨a.x + (b.x - a.x) * t, a.y + (b.y - a.y) * t, a.z + (b.z - a.z) * t⟩

/-- Modelled from the spec: matrix.rs is not under src/.  "4x4 matrix
operations (multiply, transform) underlying every other stage"; a 4x4 real
matrix in row-major layout. -/
structure Matrix4 where
  m00 : ℝ
  m01 : ℝ
  m02 : ℝ
  m03 : ℝ
  m10 : ℝ
  m11 : ℝ
  m12 : ℝ
  m13 : ℝ
  m20 : ℝ
  m21 : ℝ
  m22 : ℝ
  m23 : ℝ
  m30 : ℝ
  m31 : ℝ
  m32 : ℝ
  m33 : ℝ

/-- Modelled from the spec: matrix.rs is not under src/.  Standard 4x4
matrix-by-column-vector product, the `multiply_matrix_vector4` helper used by
the vertex pipeline. -/
def multiply_matrix_vector4 (m : Matrix4) (v : Vector4) : Vector4 :=
  ⟨m.m00 * v.x + m.m01 * v.y + m.m02 * v.z + m.m03 * v.w,
   m.m10 * v.x + m.m11 * v.y + m.m12 * v.z + m.m13 * v.w,
   m.m20 * v.x + m.m21 * v.y + m.m22 * v.z + m.m23 * v.w,
   m.m30 * v.x + m.m31 * v.y + m.m32 * v.z + m.m33 * v.w⟩

/-- The 4x4 identity matrix. -/
def identityMatrix : Matrix4 :=
  ⟨1, 0, 0, 0, 0, 1, 0, 0, 0, 0, 1, 0, 0, 0, 0, 1⟩

/-- Rust `f32 as i32` cast: truncation toward zero (saturation at the i32
range is out of the model's reach and irrelevant to the claims). -/
def f32_as_i32 (x : ℝ) : ℤ := if 0 ≤ x then ⌊x⌋ else ⌈x⌉

/-- Rust `%` on floats: remainder with the sign of the dividend,
`a - b * trunc(a / b)`. -/
def rustRem (a b : ℝ) : ℝ := a - b * (f32_as_i32 (a / b) : ℝ)

/-- Rust `a.atan2(b)`: the angle of the point `(x = b, y = a)`, i.e. the
complex argument of `b + a*I`. -/
def atan2 (y x : ℝ) : ℝ := Complex.arg ⟨x, y⟩

/-- `hash31` from shaders.rs: sine-based hash, `n.sin()`-scramble followed by
taking the fractional part. -/
def hash31 (n : ℝ) : ℝ :=
  let m := Real.sin (n * 1234567.0) * 43758.5453
  m - (⌊m⌋ : ℝ)

/-- `noise` from shaders.rs: trilinearly interpolated lattice value noise with
smoothstep fractional coordinates. -/
def noise (pos : Vector3) : ℝ :=
  let ix : ℤ := ⌊pos.x⌋
  let iy : ℤ := ⌊pos.y⌋
  let iz : ℤ := ⌊pos.z⌋
  let fx := pos.x - (⌊pos.x⌋ : ℝ)
  let fy := pos.y - (⌊pos.y⌋ : ℝ)
  let fz := pos.z - (⌊pos.z⌋ : ℝ)
  let u := fx * fx * (3.0 - 2.0 * fx)
  let v := fy * fy * (3.0 - 2.0 * fy)
  let w := fz * fz * (3.0 - 2.0 * fz)
  let n : ℤ → ℤ → ℤ → ℝ := fun i j k =>
    hash31 (((ix + i : ℤ) : ℝ) + ((iy + j : ℤ) : ℝ) * 57.0 + ((iz + k : ℤ) : ℝ) * 113.0)
  let x1 := n 0 0 0 + (n 1 0 0 - n 0 0 0) * u
  let x2 := n 0 1 0 + (n 1 1 0 - n 0 1 0) * u
  let x3 := n 0 0 1 + (n 1 0 1 - n 0 0 1) * u
  let x4 := n 0 1 1 + (n 1 1 1 - n 0 1 1) * u
  let y1 := x1 + (x2 - x1) * v
  let y2 := x3 + (x4 - x3) * v
  y1 + (y2 - y1) * w

/-- The loop state of `fractal_noise` after a given number of iterations:
(value, amplitude, frequency, weight). -/
def fractal_noise_aux (pos : Vector3) : ℕ → ℝ × ℝ × ℝ × ℝ
  | 0 => (0.0, 1.0, 1.0, 1.0)
  | n + 1 =>
    let s := fractal_noise_aux pos n
    let value := s.1
    let amplitude := s.2.1
    let frequency := s.2.2.1
    let weight := s.2.2.2
    (value + noise ⟨pos.x * frequency, pos.y * frequency, pos.z * frequency⟩ * amplitude * weight,
     amplitude * 0.5, frequency * 2.0, weight * 0.7)

/-- `fractal_noise` from shaders.rs: `octaves` is an `i32`; the Rust loop
`for _ in 0..octaves` runs `octaves.toNat` times. -/
def fractal_noise (pos : Vector3) (octaves : ℤ) : ℝ :=
  (fractal_noise_aux pos octaves.toNat).1

/-- `simulate_lighting` from shaders.rs: Lambertian dot product clamped to
[0.1, 1.0] (ambient floor). -/
def simulate_lighting (normal light_dir : Vector3) : ℝ :=
  let dot := normal.x * light_dir.x + normal.y * light_dir.y + normal.z * light_dir.z
  min (max dot 0.1) 1.0

/-- `rotate_planet_position` from shaders.rs: rotation about the vertical
(y) axis by angle `time * speed`. -/
def rotate_planet_position (pos : Vector3) (time speed : ℝ) : Vector3 :=
  let angle := time * speed
  let cos_a := Real.cos angle
  let sin_a := Real.sin angle
  ⟨pos.x * cos_a - pos.z * sin_a, pos.y, pos.x * sin_a + pos.z * cos_a⟩

/-- The three crater centers of `rocky_planet_color`. -/
def craterCenters : List Vector3 :=
  [⟨0.6, 0.2, 0.1⟩, ⟨-0.5, -0.3, 0.2⟩, ⟨0.1, 0.8, -0.2⟩]

/-- The crater-darkening step of `rocky_planet_color`'s `for c in &centers`
loop body. -/
def applyCrater (rotated crater : Vector3) (color c : Vector3) : Vector3 :=
  let d := Real.sqrt ((rotated.x - c.x) ^ 2 + (rotated.y - c.y) ^ 2 + (rotated.z - c.z) ^ 2)
  if d < 0.18 then
    let blend := (1.0 - min (d / 0.18) 1.0) ^ 2
    lerpV3 color crater (blend * 0.8)
  else color

/-- `rocky_planet_color` from shaders.rs (planet type 0, Mars-like). -/
def rocky_planet_color (pos : Vector3) (time : ℝ) : Vector3 :=
  let rotated := rotate_planet_position pos time 0.25
  let base_noise := fractal_noise rotated 4
  let detail := fractal_noise ⟨rotated.x * 8.0, rotated.y * 8.0, rotated.z * 8.0⟩ 2
  let elevation := (base_noise + detail * 0.3) * 0.5 + 0.5
  let low : Vector3 := ⟨0.55, 0.25, 0.15⟩
  let high : Vector3 := ⟨0.75, 0.45, 0.25⟩
  let crater : Vector3 := ⟨0.2, 0.15, 0.1⟩
  let color0 :=
    if elevation < 0.3 then low
    else if elevation > 0.7 then high
    else lerpV3 low high ((elevation - 0.3) / 0.4)
  let color1 := craterCenters.foldl (applyCrater rotated crater) color0
  let light_dir : Vector3 := ⟨1.0, 1.0, 1.0⟩
  let lighting := simulate_lighting ⟨rotated.x, rotated.y, rotated.z⟩ light_dir
  Vector3.smul color1 lighting

/-- `gaseous_planet_color` from shaders.rs (planet type 1, Jupiter-like). -/
def gaseous_planet_color (pos : Vector3) (time : ℝ) : Vector3 :=
  let rotated := rotate_planet_position pos time 1.3
  let r := max (Real.sqrt (rotated.x ^ 2 + rotated.y ^ 2 + rotated.z ^ 2)) 0.001
  let lat := Real.arcsin (rotated.z / r)
  let band1 := |Real.sin (lat * 9.0 + time * 0.25)|
  let band2 := |Real.cos (lat * 14.0 + time * 0.35 + 0.7)|
  let color0 : Vector3 := ⟨0.92, 0.82, 0.65⟩
  let color1 := if band1 > 0.75 then lerpV3 color0 ⟨0.55, 0.35, 0.2⟩ 0.5 else color0
  let color2 := if band2 > 0.8 then lerpV3 color1 ⟨0.4, 0.3, 0.6⟩ 0.4 else color1
  let storm_phase := time * 0.1
  let storm_x := rotated.x + 0.35 + Real.sin storm_phase * 0.05
  let storm_y := rotated.y - 0.2 + Real.cos storm_phase * 0.03
  let storm_d := Real.sqrt (storm_x * storm_x + storm_y * storm_y)
  let color3 :=
    if storm_d < 0.22 then
      lerpV3 color2 ⟨0.88, 0.25, 0.18⟩ ((1.0 - storm_d / 0.22) ^ 2 * 0.7)
    else color2
  let cloud := fractal_noise ⟨rotated.x * 25.0, rotated.y * 25.0, time * 0.12⟩ 4
  let color4 := Vector3.add color3 (Vector3.smul ⟨1.0, 1.0, 1.0⟩ (max (cloud * 0.3) 0.0))
  let light_dir : Vector3 := ⟨1.0, 1.0, 1.0⟩
  let lighting := simulate_lighting ⟨rotated.x, rotated.y, rotated.z⟩ light_dir
  Vector3.smul color4 (min (max lighting 0.3) 1.0)

/-- `biolum_planet_color` from shaders.rs (planet type 2, bioluminescent);
the unused `_lon` binding of the source is omitted. -/
def biolum_planet_color (pos : Vector3) (time : ℝ) : Vector3 :=
  let rotated := rotate_planet_position pos time 0.6
  let r := max (Real.sqrt (rotated.x ^ 2 + rotated.y ^ 2 + rotated.z ^ 2)) 0.001
  let lat := Real.arcsin (rotated.z / r)
  let terrain := fractal_noise rotated 4
  let elevation := terrain * 0.5 + 0.5
  let ocean : Vector3 := ⟨0.02, 0.05, 0.15⟩
  let land : Vector3 := ⟨0.1, 0.3, 0.1⟩
  let glow_plants : Vector3 := ⟨0.2, 0.8, 0.4⟩
  let color0 := if elevation < 0.4 then ocean else land
  let glow_noise := fractal_noise ⟨rotated.x * 6.0, rotated.y * 6.0, rotated.z * 6.0⟩ 3
  let is_glowing := glow_noise > 0.6 ∧ elevation > 0.5
  let color1 := if is_glowing then lerpV3 color0 glow_plants 0.7 else color0
  let color2 := if |lat| > 1.1 then (⟨0.85, 0.9, 1.0⟩ : Vector3) else color1
  let light_dir : Vector3 := ⟨1.0, 1.0, 1.0⟩
  let dot := rotated.x * light_dir.x + rotated.y * light_dir.y + rotated.z * light_dir.z
  let is_day := dot > 0.0
  let lighting := if is_day then max dot 0.2 else 0.1
  let final0 := Vector3.smul color2 lighting
  if ¬is_day ∧ is_glowing then Vector3.add final0 (Vector3.smul glow_plants 0.3) else final0

/-- `ringed_planet_color` from shaders.rs (planet type 3, Saturn-like body). -/
def ringed_planet_color (pos : Vector3) (time : ℝ) : Vector3 :=
  let rotated := rotate_planet_position pos time 0.5
  let r := max (Real.sqrt (rotated.x ^ 2 + rotated.y ^ 2 + rotated.z ^ 2)) 0.001
  let lat := Real.arcsin (rotated.z / r)
  let base : Vector3 := ⟨0.75, 0.65, 0.5⟩
  let bands := |Real.sin (lat * 7.0 + time * 0.08)|
  let color := lerpV3 base ⟨0.85, 0.75, 0.4⟩ (bands * 0.35)
  let light_dir : Vector3 := ⟨1.0, 1.0, 1.0⟩
  let lighting := simulate_lighting ⟨rotated.x, rotated.y, rotated.z⟩ light_dir
  Vector3.smul color lighting

/-- `ice_planet_color` from shaders.rs (planet type 4, ice crystal). -/
def ice_planet_color (pos : Vector3) (time : ℝ) : Vector3 :=
  let rotated := rotate_planet_position pos time 0.3
  let noise_val := fractal_noise rotated 5
  let fractures := fractal_noise ⟨rotated.x * 10.0, rotated.y * 10.0, rotated.z * 10.0 + time⟩ 3
  let base_ice : Vector3 := ⟨0.85, 0.95, 1.0⟩
  let deep_ice : Vector3 := ⟨0.6, 0.8, 0.95⟩
  let crystal_core : Vector3 := ⟨0.9, 0.98, 1.0⟩
  let color0 :=
    if noise_val < 0.3 then deep_ice
    else if fractures > 0.7 then crystal_core
    else base_ice
  let light_dir : Vector3 := ⟨1.0, 1.0, 1.0⟩
  let dot := rotated.x * light_dir.x + rotated.y * light_dir.y + rotated.z * light_dir.z
  let fresnel := (1.0 - |dot|) ^ 3
  let color1 := lerpV3 color0 ⟨1.0, 1.0, 1.0⟩ (fresnel * 0.3)
  Vector3.smul color1 (max dot 0.2)

/-- Modelled from the spec: vertex.rs is not under src/.  A vertex carries
object-space position, normal, texture coordinates, an optional base color,
and, after transformation, screen-space position and transformed normal. -/
structure Vertex where
  position : Vector3
  normal : Vector3
  tex_coords : ℝ × ℝ
  color : Vector3
  transformed_position : Vector3
  transformed_normal : Vector3

/-- The `Uniforms` struct from main.rs: per-frame matrices, times, planet-type
selector and render-mode selector. -/
structure Uniforms where
  model_matrix : Matrix4
  view_matrix : Matrix4
  projection_matrix : Matrix4
  viewport_matrix : Matrix4
  time : ℝ
  dt : ℝ
  planet_type : ℤ
  render_type : ℤ

/-- The `Fragment` struct from fragment.rs; `Fragment::new` stores depth both
in `position.z` and in `depth`. -/
structure Fragment where
  position : Vector3
  color : Vector3
  depth : ℝ
  world_position : Vector3

/-- `transform_normal` from shaders.rs: transform by the model matrix with
w = 0, then renormalize unless the transformed length is zero. -/
def transform_normal (normal : Vector3) (model_matrix : Matrix4) : Vector3 :=
  let normal_vec4 : Vector4 := ⟨normal.x, normal.y, normal.z, 0.0⟩
  let transformed := multiply_matrix_vector4 model_matrix normal_vec4
  let n : Vector3 := ⟨transformed.x, transformed.y, transformed.z⟩
  let len := Real.sqrt (n.x * n.x + n.y * n.y + n.z * n.z)
  if len > 0.0 then ⟨n.x / len, n.y / len, n.z / len⟩ else n

/-- The `match uniforms.render_type` block at the top of `vertex_shader`:
remaps the object-space position for ring mode (1) and moon mode (2), and
passes it through unchanged otherwise, with homogeneous w = 1. -/
def remapped_position (vertex : Vertex) (uniforms : Uniforms) : Vector4 :=
  if uniforms.render_type = 1 then
    let angle :=
      rustRem (atan2 vertex.position.x vertex.position.y + uniforms.time * 0.2) (2.0 * Real.pi)
    let base_radius := 1.8 + Real.sin (vertex.position.z * 0.3) * 0.2
    ⟨base_radius * Real.cos angle, vertex.position.y * 0.05, base_radius * Real.sin angle, 1.0⟩
  else if uniforms.render_type = 2 then
    let moon_orbit_time := uniforms.time * 0.4
    let moon_distance : ℝ := 2.8
    let moon_x := moon_distance * Real.cos moon_orbit_time
    let moon_z := moon_distance * Real.sin moon_orbit_time
    let moon_y := Real.sin (moon_orbit_time * 3.0) * 0.2
    ⟨moon_x + vertex.position.x * 0.25,
     moon_y + vertex.position.y * 0.25,
     moon_z + vertex.position.z * 0.25, 1.0⟩
  else ⟨vertex.position.x, vertex.position.y, vertex.position.z, 1.0⟩

/-- The clip-space position computed inside `vertex_shader`:
projection ∘ view ∘ model applied to the remapped position. -/
def clip_position_of (vertex : Vertex) (uniforms : Uniforms) : Vector4 :=
  multiply_matrix_vector4 uniforms.projection_matrix
    (multiply_matrix_vector4 uniforms.view_matrix
      (multiply_matrix_vector4 uniforms.model_matrix (remapped_position vertex uniforms)))

/-- `vertex_shader` from shaders.rs: remap, model/view/projection, perspective
divide (skipped when clip w = 0), viewport transform, and normal transform. -/
def vertex_shader (vertex : Vertex) (uniforms : Uniforms) : Vertex :=
  let clip_position := clip_position_of vertex uniforms
  let ndc : Vector3 :=
    if clip_position.w ≠ 0.0 then
      ⟨clip_position.x / clip_position.w,
       clip_position.y / clip_position.w,
       clip_position.z / clip_position.w⟩
    else ⟨clip_position.x, clip_position.y, clip_position.z⟩
  let ndc_vec4 : Vector4 := ⟨ndc.x, ndc.y, ndc.z, 1.0⟩
  let screen_position := multiply_matrix_vector4 uniforms.viewport_matrix ndc_vec4
  { vertex with
    transformed_position := ⟨screen_position.x, screen_position.y, screen_position.z⟩
    transformed_normal := transform_normal vertex.normal uniforms.model_matrix }

/-- Modelled from the spec: framebuffer.rs is not under src/.  The framebuffer
owns a color buffer and a depth buffer indexed by (x, y), sized
width × height. -/
structure Framebuffer where
  width : ℤ
  height : ℤ
  colorAt : ℤ → ℤ → Vector3
  depthAt : ℤ → ℤ → ℝ

/-- Modelled from the spec: framebuffer.rs is not under src/.
"point(x, y, color, depth) writes color at (x,y) only if x,y are within
bounds and depth is less than the buffer's currently stored depth at that
pixel; on accepted write, updates both color and depth"; out-of-bounds or
depth-test-failing writes are silent no-ops. -/
def Framebuffer.point (fb : Framebuffer) (x y : ℤ) (color : Vector3) (depth : ℝ) :
    Framebuffer :=
  if 0 ≤ x ∧ x < fb.width ∧ 0 ≤ y ∧ y < fb.height ∧ depth < fb.depthAt x y then
    { fb with
      colorAt := fun a b => if a = x ∧ b = y then color else fb.colorAt a b
      depthAt := fun a b => if a = x ∧ b = y then depth else fb.depthAt a b }
  else fb

/-- The dispatch on `planet_type` inside `fragment_shader` (Rust `match`). -/
def planet_color_dispatch (planet_type : ℤ) (pos : Vector3) (time : ℝ) : Vector3 :=
  if planet_type = 0 then rocky_planet_color pos time
  else if planet_type = 1 then gaseous_planet_color pos time
  else if planet_type = 2 then biolum_planet_color pos time
  else if planet_type = 3 then ringed_planet_color pos time
  else if planet_type = 4 then ice_planet_color pos time
  else ⟨0.5, 0.5, 0.5⟩

/-- `fragment_shader` from shaders.rs: planet-type dispatch followed by the
per-channel clamp `.max(0.0).min(1.0)`. -/
def fragment_shader (fragment : Fragment) (uniforms : Uniforms) : Vector3 :=
  let pos := fragment.world_position
  let time := uniforms.time
  let planet_type := uniforms.planet_type
  let color := planet_color_dispatch planet_type pos time
  ⟨clamp01 color.x, clamp01 color.y, clamp01 color.z⟩

/-- The color computed for a ring fragment of planar radius `radius` in the
fragment loop of `render_rings` (lines 365-374 of shaders.rs). -/
def ring_final_color (radius time : ℝ) : Vector3 :=
  let pattern := |Real.sin (radius * 40.0 + time * 0.15)|
  let base : Vector3 := ⟨0.88, 0.82, 0.65⟩
  let dark : Vector3 := ⟨0.65, 0.58, 0.4⟩
  let ring_color := lerpV3 base dark (pattern * 0.5)
  let ring_normal : Vector3 := ⟨0.0, 1.0, 0.0⟩
  let light_dir : Vector3 := ⟨1.0, 1.0, 1.0⟩
  let lighting := simulate_lighting ring_normal light_dir
  Vector3.smul ring_color lighting

/-- The body of the `for fragment in fragments` loop of `render_rings`
(lines 354-381 of shaders.rs): compute the planar radius, discard the
fragment outside [1.6, 2.4], otherwise color it and write it to the
framebuffer. -/
def processRingFragment (fb : Framebuffer) (time : ℝ) (fragment : Fragment) : Framebuffer :=
  let dx := fragment.world_position.x
  let dz := fragment.world_position.z
  let radius := Real.sqrt (dx * dx + dz * dz)
  if radius < 1.6 ∨ radius > 2.4 then fb
  else
    fb.point (f32_as_i32 fragment.position.x) (f32_as_i32 fragment.position.y)
      (ring_final_color radius time) fragment.depth

/-- The fragment stage of `render_rings`: the rasterized fragments are folded
through `processRingFragment` (the earlier stages of `render_rings` — vertex
shading with render_type = 1, triangle grouping, rasterization via triangle.rs
which is not under src/ — produce the fragment list consumed here). -/
def render_rings_fragments (fb : Framebuffer) (time : ℝ) (fragments : List Fragment) :
    Framebuffer :=
  fragments.foldl (fun acc fragment => processRingFragment acc time fragment) fb

/-- The color computed for a moon fragment in the fragment loop of
`render_moon` (lines 411-427 of shaders.rs). -/
def moon_final_color (world_position : Vector3) : Vector3 :=
  let moon_base : Vector3 := ⟨0.65, 0.62, 0.6⟩
  let crater_noise :=
    fractal_noise ⟨world_position.x * 8.0, world_position.y * 8.0, world_position.z * 8.0⟩ 2
  let moon_color : Vector3 := if crater_noise > 0.6 then ⟨0.5, 0.48, 0.45⟩ else moon_base
  let moon_normal : Vector3 := ⟨world_position.x, world_position.y, world_position.z⟩
  let light_dir : Vector3 := ⟨1.0, 1.0, 1.0⟩
  let lighting := simulate_lighting moon_normal light_dir
  Vector3.smul moon_color lighting

/-- The body of the `for fragment in fragments` loop of `render_moon`
(lines 411-435 of shaders.rs). -/
def processMoonFragment (fb : Framebuffer) (fragment : Fragment) : Framebuffer :=
  fb.point (f32_as_i32 fragment.position.x) (f32_as_i32 fragment.position.y)
    (moon_final_color fragment.world_position) fragment.depth

/-- One render pass of the per-frame loop in main.rs. -/
inductive RenderPass where
  | body : RenderPass
  | rings : RenderPass
  | moon : RenderPass
deriving DecidableEq

/-- The sequence of render passes the main loop issues for one frame
(main.rs lines 133-143): `render_planet` always, then `render_rings` only
when `planet_type == 3`, then `render_moon` only when `planet_type == 0`. -/
def framePasses (planet_type : ℤ) : List RenderPass :=
  [RenderPass.body]
    ++ (if planet_type = 3 then [RenderPass.rings] else [])
    ++ (if planet_type = 0 then [RenderPass.moon] else [])

/-! ## Helper lemmas -/

/-- All three channels of a color lie in the unit interval. -/
def channelsIn01 (c : Vector3) : Prop :=
  0 ≤ c.x ∧ c.x ≤ 1 ∧ 0 ≤ c.y ∧ c.y ≤ 1 ∧ 0 ≤ c.z ∧ c.z ≤ 1

lemma clamp01_mem (t : ℝ) : 0 ≤ clamp01 t ∧ clamp01 t ≤ 1 :=
  ⟨le_min (le_max_right t 0) zero_le_one, min_le_right _ _⟩

lemma lerp_channel_mem (a b t : ℝ) (ha0 : 0 ≤ a) (ha1 : a ≤ 1) (hb0 : 0 ≤ b) (hb1 : b ≤ 1) :
    0 ≤ a + (b - a) * clamp01 t ∧ a + (b - a) * clamp01 t ≤ 1 := by
  obtain ⟨h0, h1⟩ := clamp01_mem t
  constructor <;> nlinarith

lemma lerpV3_channels (a b : Vector3) (t : ℝ) (ha : channelsIn01 a) (hb : channelsIn01 b) :
    channelsIn01 (lerpV3 a b t) := by
  obtain ⟨hax0, hax1, hay0, hay1, haz0, haz1⟩ := ha
  obtain ⟨hbx0, hbx1, hby0, hby1, hbz0, hbz1⟩ := hb
  simp only [lerpV3, channelsIn01]
  exact ⟨(lerp_channel_mem _ _ _ hax0 hax1 hbx0 hbx1).1,
    (lerp_channel_mem _ _ _ hax0 hax1 hbx0 hbx1).2,
    (lerp_channel_mem _ _ _ hay0 hay1 hby0 hby1).1,
    (lerp_channel_mem _ _ _ hay0 hay1 hby0 hby1).2,
    (lerp_channel_mem _ _ _ haz0 haz1 hbz0 hbz1).1,
    (lerp_channel_mem _ _ _ haz0 haz1 hbz0 hbz1).2⟩

lemma simulate_lighting_mem (n l : Vector3) :
    0 ≤ simulate_lighting n l ∧ simulate_lighting n l ≤ 1 := by
  simp only [simulate_lighting]
  constructor
  · exact le_min (le_trans (by norm_num) (le_max_right _ 0.1)) (by norm_num)
  · exact le_trans (min_le_right _ _) (by norm_num)

lemma mul_mem01 (a b : ℝ) (ha0 : 0 ≤ a) (ha1 : a ≤ 1) (hb0 : 0 ≤ b) (hb1 : b ≤ 1) :
    0 ≤ a * b ∧ a * b ≤ 1 :=
  ⟨mul_nonneg ha0 hb0, le_trans (mul_le_of_le_one_right ha0 hb1) ha1⟩

lemma smul_channels (c : Vector3) (s : ℝ) (hc : channelsIn01 c) (hs0 : 0 ≤ s) (hs1 : s ≤ 1) :
    channelsIn01 (Vector3.smul c s) := by
  obtain ⟨hx0, hx1, hy0, hy1, hz0, hz1⟩ := hc
  simp only [Vector3.smul, channelsIn01]
  exact ⟨(mul_mem01 _ _ hx0 hx1 hs0 hs1).1, (mul_mem01 _ _ hx0 hx1 hs0 hs1).2,
    (mul_mem01 _ _ hy0 hy1 hs0 hs1).1, (mul_mem01 _ _ hy0 hy1 hs0 hs1).2,
    (mul_mem01 _ _ hz0 hz1 hs0 hs1).1, (mul_mem01 _ _ hz0 hz1 hs0 hs1).2⟩

/-- Closed form of the `fractal_noise` loop state after `n` iterations. -/
lemma fractal_noise_aux_closed (pos : Vector3) (n : ℕ) :
    fractal_noise_aux pos n =
      (∑ i ∈ Finset.range n,
         noise ⟨pos.x * 2 ^ i, pos.y * 2 ^ i, pos.z * 2 ^ i⟩ * 0.5 ^ i * 0.7 ^ i,
       0.5 ^ n, 2 ^ n, 0.7 ^ n) := by
  induction n with
  | zero =>
    simp only [fractal_noise_aux, Finset.range_zero, Finset.sum_empty, pow_zero]
    norm_num
  | succ n ih =>
    simp only [fractal_noise_aux, ih]
    simp only [Prod.mk.injEq, Finset.sum_range_succ, pow_succ]
    refine ⟨?_, trivial, by norm_num, by norm_num⟩
    ring_nf

/-! ## Claim theorems -/

/-- C10: `rotate_planet_position` is a rotation about the vertical axis: the
y component is unchanged and x'² + z'² = x² + z², so the Euclidean norm of the
position is preserved in exact real arithmetic. -/
theorem rotate_planet_position_is_vertical_rotation (pos : Vector3) (time speed : ℝ) :
    (rotate_planet_position pos time speed).y = pos.y ∧
    (rotate_planet_position pos time speed).x ^ 2 + (rotate_planet_position pos time speed).z ^ 2
      = pos.x ^ 2 + pos.z ^ 2 := by
  refine ⟨rfl, ?_⟩
  simp only [rotate_planet_position]
  linear_combination (pos.x ^ 2 + pos.z ^ 2) * Real.sin_sq_add_cos_sq (time * speed)

/-- C8: `hash31` is deterministic — identical inputs give identical outputs —
and its result always lies in the half-open interval [0, 1). -/
theorem hash31_deterministic_and_in_unit (n₁ n₂ : ℝ) :
    (n₁ = n₂ → hash31 n₁ = hash31 n₂) ∧ 0 ≤ hash31 n₁ ∧ hash31 n₁ < 1 := by
  refine ⟨fun h => by rw [h], ?_, ?_⟩
  · rw [show hash31 n₁ = Int.fract (Real.sin (n₁ * 1234567.0) * 43758.5453) from rfl]
    exact Int.fract_nonneg _
  · rw [show hash31 n₁ = Int.fract (Real.sin (n₁ * 1234567.0) * 43758.5453) from rfl]
    exact Int.fract_lt_one _

/-- Witness for C8 at the concrete input 0. -/
theorem hash31_deterministic_and_in_unit_witness :
    hash31 0 = hash31 0 ∧ 0 ≤ hash31 0 ∧ hash31 0 < 1 :=
  ⟨(hash31_deterministic_and_in_unit 0 0).1 rfl,
   (hash31_deterministic_and_in_unit 0 0).2.1,
   (hash31_deterministic_and_in_unit 0 0).2.2⟩

/-- C2: for every octave count k ≥ 0 (a natural number cast to the `i32`
argument), `fractal_noise` equals the sum over i < k of
noise(pos · 2^i) · 0.5^i · 0.7^i, and with 0 octaves it returns exactly 0. -/
theorem fractal_noise_closed_form (pos : Vector3) (k : ℕ) :
    fractal_noise pos (k : ℤ) =
      (∑ i ∈ Finset.range k,
        noise ⟨pos.x * 2 ^ i, pos.y * 2 ^ i, pos.z * 2 ^ i⟩ * 0.5 ^ i * 0.7 ^ i) ∧
    fractal_noise pos 0 = 0 := by
  constructor
  · simp only [fractal_noise, Int.toNat_natCast, fractal_noise_aux_closed]
  · simp only [fractal_noise, Int.toNat_zero, fractal_noise_aux]
    norm_num

/-- C9: per frame, the body pass always runs first; the ring pass runs iff
planet_type = 3, the moon pass iff planet_type = 0, each after the body
pass; for all other planet types only the body pass runs. -/
theorem framePasses_conditional (pt : ℤ) :
    (framePasses pt).head? = some RenderPass.body ∧
    (RenderPass.rings ∈ (framePasses pt).tail ↔ pt = 3) ∧
    (RenderPass.moon ∈ (framePasses pt).tail ↔ pt = 0) ∧
    RenderPass.body ∉ (framePasses pt).tail ∧
    (pt ≠ 3 ∧ pt ≠ 0 → framePasses pt = [RenderPass.body]) := by
  by_cases h3 : pt = 3 <;> by_cases h0 : pt = 0 <;>
    simp_all [framePasses]

/-- Witness for C9 at the concrete planet type 7: only the body pass runs. -/
theorem framePasses_conditional_witness : framePasses 7 = [RenderPass.body] :=
  (framePasses_conditional 7).2.2.2.2 ⟨by decide, by decide⟩

/-- A rejected `point` write (out of bounds or failing the depth test) leaves
the framebuffer unchanged. -/
lemma point_reject (fb : Framebuffer) (x y : ℤ) (c : Vector3) (d : ℝ)
    (h : ¬(0 ≤ x ∧ x < fb.width ∧ 0 ≤ y ∧ y < fb.height ∧ d < fb.depthAt x y)) :
    fb.point x y c d = fb := by
  simp only [Framebuffer.point, if_neg h]

/-- C3: `point(x, y, color, depth)` updates the pixel's color and depth iff
(x,y) is in bounds and depth is strictly below the stored depth; otherwise
it leaves the framebuffer unchanged; and the write is idempotent in outcome
(modelled from the spec: framebuffer.rs is not under src/). -/
theorem framebuffer_point_spec (fb : Framebuffer) (x y : ℤ) (c : Vector3) (d : ℝ) :
    ((0 ≤ x ∧ x < fb.width ∧ 0 ≤ y ∧ y < fb.height ∧ d < fb.depthAt x y) →
      (fb.point x y c d).colorAt x y = c ∧ (fb.point x y c d).depthAt x y = d) ∧
    (¬(0 ≤ x ∧ x < fb.width ∧ 0 ≤ y ∧ y < fb.height ∧ d < fb.depthAt x y) →
      fb.point x y c d = fb) ∧
    (fb.point x y c d).point x y c d = fb.point x y c d := by
  have hpos : ∀ h : 0 ≤ x ∧ x < fb.width ∧ 0 ≤ y ∧ y < fb.height ∧ d < fb.depthAt x y,
      (fb.point x y c d).colorAt x y = c ∧ (fb.point x y c d).depthAt x y = d := by
    intro h
    simp only [Framebuffer.point, if_pos h]
    constructor <;> simp
  refine ⟨hpos, point_reject fb x y c d, ?_⟩
  by_cases h : 0 ≤ x ∧ x < fb.width ∧ 0 ≤ y ∧ y < fb.height ∧ d < fb.depthAt x y
  · apply point_reject
    intro hc
    have hd : d < (fb.point x y c d).depthAt x y := hc.2.2.2.2
    rw [(hpos h).2] at hd
    exact lt_irrefl d hd
  · rw [point_reject fb x y c d h]
    exact point_reject fb x y c d h

/-- A concrete 10×10 framebuffer with black pixels at the far depth 100. -/
def fb0 : Framebuffer :=
  ⟨10, 10, fun _ _ => ⟨0.0, 0.0, 0.0⟩, fun _ _ => 100.0⟩

/-- Witness for C3: an in-bounds write with depth 5 below the stored 100 lands
both the color and the depth. -/
theorem framebuffer_point_spec_witness :
    (fb0.point 1 1 ⟨1, 0, 0⟩ 5).colorAt 1 1 = ⟨1, 0, 0⟩ ∧
    (fb0.point 1 1 ⟨1, 0, 0⟩ 5).depthAt 1 1 = 5 :=
  (framebuffer_point_spec fb0 1 1 ⟨1, 0, 0⟩ 5).1
    (by refine ⟨by norm_num, ?_, by norm_num, ?_, ?_⟩ <;> norm_num [fb0])

/-- C7: for a unit-length normal and the identity model matrix,
`transform_normal` returns the input unchanged (hence still unit length and
of the same direction). -/
theorem transform_normal_identity (n : Vector3)
    (h : n.x * n.x + n.y * n.y + n.z * n.z = 1) :
    transform_normal n identityMatrix = n := by
  obtain ⟨x, y, z⟩ := n
  simp only at h
  simp only [transform_normal, multiply_matrix_vector4, identityMatrix]
  have hx : (1:ℝ) * x + 0 * y + 0 * z + 0 * 0.0 = x := by ring
  have hy : (0:ℝ) * x + 1 * y + 0 * z + 0 * 0.0 = y := by ring
  have hz : (0:ℝ) * x + 0 * y + 1 * z + 0 * 0.0 = z := by ring
  simp only [hx, hy, hz]
  rw [show x * x + y * y + z * z = (1:ℝ) from h, Real.sqrt_one]
  norm_num

/-- Witness for C7 at the concrete unit normal (1, 0, 0). -/
theorem transform_normal_identity_witness :
    transform_normal ⟨1, 0, 0⟩ identityMatrix = ⟨1, 0, 0⟩ :=
  transform_normal_identity ⟨1, 0, 0⟩ (by norm_num)

/-- C4: degenerate numeric inputs take their defined fallbacks: when the
clip-space w is exactly 0, `vertex_shader` skips the perspective divide and
feeds the clip-space x, y, z directly into the viewport transform as NDC;
and when the model-matrix-transformed normal has length 0, `transform_normal`
returns the zero vector instead of dividing by zero. -/
theorem degenerate_inputs_fallback :
    (∀ (v : Vertex) (u : Uniforms), (clip_position_of v u).w = 0 →
      (vertex_shader v u).transformed_position =
        ⟨(multiply_matrix_vector4 u.viewport_matrix
            ⟨(clip_position_of v u).x, (clip_position_of v u).y,
             (clip_position_of v u).z, 1.0⟩).x,
         (multiply_matrix_vector4 u.viewport_matrix
            ⟨(clip_position_of v u).x, (clip_position_of v u).y,
             (clip_position_of v u).z, 1.0⟩).y,
         (multiply_matrix_vector4 u.viewport_matrix
            ⟨(clip_position_of v u).x, (clip_position_of v u).y,
             (clip_position_of v u).z, 1.0⟩).z⟩) ∧
    (∀ (nrm : Vector3) (m : Matrix4),
      Real.sqrt ((multiply_matrix_vector4 m ⟨nrm.x, nrm.y, nrm.z, 0.0⟩).x *
            (multiply_matrix_vector4 m ⟨nrm.x, nrm.y, nrm.z, 0.0⟩).x +
          (multiply_matrix_vector4 m ⟨nrm.x, nrm.y, nrm.z, 0.0⟩).y *
            (multiply_matrix_vector4 m ⟨nrm.x, nrm.y, nrm.z, 0.0⟩).y +
          (multiply_matrix_vector4 m ⟨nrm.x, nrm.y, nrm.z, 0.0⟩).z *
            (multiply_matrix_vector4 m ⟨nrm.x, nrm.y, nrm.z, 0.0⟩).z) = 0 →
      transform_normal nrm m = ⟨0, 0, 0⟩) := by
  constructor
  · intro v u h
    have h' : (clip_position_of v u).w = 0.0 := by rw [h]; norm_num
    simp only [vertex_shader]
    rw [if_neg (not_not_intro h')]
  · intro nrm m h
    set T := multiply_matrix_vector4 m ⟨nrm.x, nrm.y, nrm.z, 0.0⟩ with hT
    have hsum : T.x * T.x + T.y * T.y + T.z * T.z = 0 := by
      have hnn : 0 ≤ T.x * T.x + T.y * T.y + T.z * T.z := by
        have := mul_self_nonneg T.x
        have := mul_self_nonneg T.y
        have := mul_self_nonneg T.z
        linarith
      have hle := Real.sqrt_eq_zero'.mp h
      linarith
    have hx : T.x = 0 := by nlinarith [sq_nonneg T.x, sq_nonneg T.y, sq_nonneg T.z]
    have hy : T.y = 0 := by nlinarith [sq_nonneg T.x, sq_nonneg T.y, sq_nonneg T.z]
    have hz : T.z = 0 := by nlinarith [sq_nonneg T.x, sq_nonneg T.y, sq_nonneg T.z]
    simp only [transform_normal, ← hT]
    rw [hsum, Real.sqrt_zero]
    rw [if_neg (by norm_num)]
    simp [hx, hy, hz]

/-- The all-zero 4x4 matrix, used as a degenerate uniforms input. -/
def zeroMatrix : Matrix4 :=
  ⟨0, 0, 0, 0, 0, 0, 0, 0, 0, 0, 0, 0, 0, 0, 0, 0⟩

/-- A vertex at the origin with zero attributes. -/
def v0 : Vertex :=
  ⟨⟨0, 0, 0⟩, ⟨0, 0, 0⟩, (0, 0), ⟨0, 0, 0⟩, ⟨0, 0, 0⟩, ⟨0, 0, 0⟩⟩

/-- Uniforms whose four matrices are all zero (so clip w = 0), with body
render mode and planet type 0. -/
def u0 : Uniforms :=
  ⟨zeroMatrix, zeroMatrix, zeroMatrix, zeroMatrix, 0, 0, 0, 0⟩

/-- Witness for C4: with all-zero matrices the clip w is 0 and the transformed
normal's length is 0, and both fallbacks fire. -/
theorem degenerate_inputs_fallback_witness :
    (vertex_shader v0 u0).transformed_position =
      ⟨(multiply_matrix_vector4 u0.viewport_matrix
          ⟨(clip_position_of v0 u0).x, (clip_position_of v0 u0).y,
           (clip_position_of v0 u0).z, 1.0⟩).x,
       (multiply_matrix_vector4 u0.viewport_matrix
          ⟨(clip_position_of v0 u0).x, (clip_position_of v0 u0).y,
           (clip_position_of v0 u0).z, 1.0⟩).y,
       (multiply_matrix_vector4 u0.viewport_matrix
          ⟨(clip_position_of v0 u0).x, (clip_position_of v0 u0).y,
           (clip_position_of v0 u0).z, 1.0⟩).z⟩ ∧
    transform_normal ⟨0, 0, 0⟩ zeroMatrix = ⟨0, 0, 0⟩ := by
  constructor
  · refine degenerate_inputs_fallback.1 v0 u0 ?_
    norm_num [clip_position_of, multiply_matrix_vector4, remapped_position, u0, v0, zeroMatrix]
  · refine degenerate_inputs_fallback.2 ⟨0, 0, 0⟩ zeroMatrix ?_
    norm_num [multiply_matrix_vector4, zeroMatrix, Real.sqrt_zero]

/-- C6: the ring-pass fragment loop writes to the framebuffer exactly when the
planar radius sqrt(world x² + world z²) lies in [1.6, 2.4]; a fragment with
radius below 1.6 or above 2.4 is discarded and the framebuffer is untouched. -/
theorem render_rings_radius_filter (fb : Framebuffer) (time : ℝ) (fragment : Fragment) :
    (1.6 ≤ Real.sqrt (fragment.world_position.x * fragment.world_position.x +
          fragment.world_position.z * fragment.world_position.z) ∧
        Real.sqrt (fragment.world_position.x * fragment.world_position.x +
          fragment.world_position.z * fragment.world_position.z) ≤ 2.4 →
      processRingFragment fb time fragment =
        fb.point (f32_as_i32 fragment.position.x) (f32_as_i32 fragment.position.y)
          (ring_final_color
            (Real.sqrt (fragment.world_position.x * fragment.world_position.x +
              fragment.world_position.z * fragment.world_position.z)) time)
          fragment.depth) ∧
    (Real.sqrt (fragment.world_position.x * fragment.world_position.x +
          fragment.world_position.z * fragment.world_position.z) < 1.6 ∨
        Real.sqrt (fragment.world_position.x * fragment.world_position.x +
          fragment.world_position.z * fragment.world_position.z) > 2.4 →
      processRingFragment fb time fragment = fb) := by
  constructor
  · intro h
    simp only [processRingFragment]
    rw [if_neg]
    push_neg
    exact ⟨h.1, h.2⟩
  · intro h
    simp only [processRingFragment]
    rw [if_pos h]

/-- A concrete ring fragment at world position (2, 0, 0), planar radius 2. -/
def ringFrag : Fragment :=
  ⟨⟨0, 0, 0⟩, ⟨0, 0, 0⟩, 0, ⟨2, 0, 0⟩⟩

/-- Witness for C6: a fragment with planar radius 2 ∈ [1.6, 2.4] leads to a
framebuffer point write. -/
theorem render_rings_radius_filter_witness :
    processRingFragment fb0 0 ringFrag =
      fb0.point (f32_as_i32 ringFrag.position.x) (f32_as_i32 ringFrag.position.y)
        (ring_final_color
          (Real.sqrt (ringFrag.world_position.x * ringFrag.world_position.x +
            ringFrag.world_position.z * ringFrag.world_position.z)) 0)
        ringFrag.depth := by
  refine (render_rings_radius_filter fb0 0 ringFrag).1 ?_
  have h4 : Real.sqrt (ringFrag.world_position.x * ringFrag.world_position.x +
      ringFrag.world_position.z * ringFrag.world_position.z) = 2 := by
    rw [show ringFrag.world_position.x * ringFrag.world_position.x +
        ringFrag.world_position.z * ringFrag.world_position.z = (2:ℝ) ^ 2 by
      norm_num [ringFrag]]
    exact Real.sqrt_sq (by norm_num)
  rw [h4]
  norm_num

/-- C5: any planet-type selector outside 0–4 (negative or above 4) makes
`fragment_shader` return exactly the neutral gray (0.5, 0.5, 0.5). -/
theorem fragment_shader_fallback_gray (fragment : Fragment) (uniforms : Uniforms)
    (h : uniforms.planet_type < 0 ∨ 4 < uniforms.planet_type) :
    fragment_shader fragment uniforms = ⟨0.5, 0.5, 0.5⟩ := by
  have h0 : uniforms.planet_type ≠ 0 := by omega
  have h1 : uniforms.planet_type ≠ 1 := by omega
  have h2 : uniforms.planet_type ≠ 2 := by omega
  have h3 : uniforms.planet_type ≠ 3 := by omega
  have h4 : uniforms.planet_type ≠ 4 := by omega
  simp only [fragment_shader, planet_color_dispatch,
    if_neg h0, if_neg h1, if_neg h2, if_neg h3, if_neg h4]
  norm_num [clamp01]

/-- Uniforms with the out-of-range planet type 5. -/
def u5 : Uniforms :=
  ⟨zeroMatrix, zeroMatrix, zeroMatrix, zeroMatrix, 0, 0, 5, 0⟩

/-- A fragment at the origin. -/
def frag0 : Fragment :=
  ⟨⟨0, 0, 0⟩, ⟨0, 0, 0⟩, 0, ⟨0, 0, 0⟩⟩

/-- Witness for C5 at the concrete out-of-range planet type 5. -/
theorem fragment_shader_fallback_gray_witness :
    fragment_shader frag0 u5 = ⟨0.5, 0.5, 0.5⟩ :=
  fragment_shader_fallback_gray frag0 u5 (Or.inr (by norm_num [u5]))

/-- C1: every color handed to the framebuffer's point write has each channel
in [0,1]: `fragment_shader` clamps its output, and the colors the ring pass
and the moon pass compute before their point calls are also channelwise in
[0,1] for every fragment radius, time and world position. -/
theorem shading_colors_in_unit_interval (fragment : Fragment) (uniforms : Uniforms)
    (radius time : ℝ) (wp : Vector3) :
    channelsIn01 (fragment_shader fragment uniforms) ∧
    channelsIn01 (ring_final_color radius time) ∧
    channelsIn01 (moon_final_color wp) := by
  refine ⟨?_, ?_, ?_⟩
  · simp only [fragment_shader, channelsIn01]
    exact ⟨(clamp01_mem _).1, (clamp01_mem _).2, (clamp01_mem _).1, (clamp01_mem _).2,
      (clamp01_mem _).1, (clamp01_mem _).2⟩
  · simp only [ring_final_color]
    apply smul_channels
    · apply lerpV3_channels <;> norm_num [channelsIn01]
    · exact (simulate_lighting_mem _ _).1
    · exact (simulate_lighting_mem _ _).2
  · simp only [moon_final_color]
    apply smul_channels
    · split_ifs <;> norm_num [channelsIn01]
    · exact (simulate_lighting_mem _ _).1
    · exact (simulate_lighting_mem _ _).2

end

end Lab4
